import Mathlib

/-!
Verification development for the Chennai MTC frontend.

The definitions below are a shallow embedding of the JavaScript source:
 - `src/frontend/src/components/SearchPanel.js` (stop autocomplete and
   destination-suggestion ranking),
 - `src/frontend/src/App.js` (`handleSearch` response handling),
 - `src/frontend/src/components/LiveBusTracker.js` (`fetchLiveBuses` and the
   rendered live-arrivals list),
 - the map view component (`fetchBuses` refresh and `displayedBuses`).

JavaScript strings are modelled as `List Char`; machine floats that only
ever flow through equality / truthiness tests are modelled as `Int`;
possibly-absent JSON fields are modelled as `Option`; JavaScript truthiness
is modelled explicitly (`jsTruthyStr`, `jsTruthyNum`, `Option.isSome`).
`Array.prototype.sort` with the comparator `(a, b) => b.score - a.score` is a
stable descending sort; a stable sort under a total preorder is extensionally
unique, so it is modelled by `List.insertionSort` (also stable) with the
descending-score relation `scoreGe`.
-/

namespace MTC

/-- JavaScript strings, modelled character by character. -/
abbrev Str := List Char

/-- JavaScript `s.toLowerCase()` (ASCII case folding, as used by the stop names). -/
def lowerStr (s : Str) : Str := s.map Char.toLower

/-- JavaScript `s.trim()`: drop whitespace from both ends. -/
def trimStr (s : Str) : Str :=
  ((s.dropWhile Char.isWhitespace).reverse.dropWhile Char.isWhitespace).reverse

/-- Substring test: `sub` occurs contiguously in `s` (JavaScript `s.includes(sub)`). -/
def strIncludes (sub s : Str) : Bool := decide (sub <:+: s)

/-- JavaScript `query.split(/\s+/).filter(w => w.length > 0)`: the non-empty
whitespace-separated words of `query`.  Splitting at every whitespace
character and then discarding empty pieces coincides with splitting at
whitespace runs. -/
def queryWordsOf (query : Str) : List Str :=
  (List.splitOnP Char.isWhitespace query).filter (fun w => 0 < w.length)

/-- JavaScript truthiness of an optional string: `undefined`/`null` and the
empty string are falsy. -/
def jsTruthyStr : Option Str → Bool
  | some s => !s.isEmpty
  | none => false

/-- JavaScript truthiness of an optional number: `undefined`/`null` and `0`
are falsy. -/
def jsTruthyNum : Option Int → Bool
  | some v => v != 0
  | none => false

/-- A stop as delivered by `/get-all-stops-with-routes`. -/
structure Stop where
  stop_id : Nat
  stop_name : Str
  routes : List Str
deriving DecidableEq

/-- A reachable stop as delivered by `/get-destination-stops`: annotated with
the number of stops away from the selected source. -/
structure DestStop where
  stop_id : Nat
  stop_name : Str
  routes : List Str
  stops_away : Nat
deriving DecidableEq

/-- The comparator `(a, b) => b.score - a.score` passed to `.sort`, as the
order relation of a stable sort: `x` may stay before `y` iff
`y.score ≤ x.score` (descending, ties keep input order). -/
def scoreGe {σ : Type} (x y : σ × Int) : Prop := y.2 ≤ x.2

instance {σ : Type} : DecidableRel (@scoreGe σ) :=
  fun x y => inferInstanceAs (Decidable (y.2 ≤ x.2))

instance {σ : Type} : IsTotal (σ × Int) scoreGe :=
  ⟨fun x y => (le_total y.2 x.2).imp id id⟩

instance {σ : Type} : IsTrans (σ × Int) scoreGe :=
  ⟨fun _ _ _ h h' => le_trans h' h⟩

/-- SearchPanel.js, lines 44–58 (score of one stop for the source query):
`+100` if the lowercased name starts with the whole query, `+50` if it
contains the whole query, `+20` for each query word the name starts with,
plus the number of routes serving the stop. -/
def srcScore (query : Str) (queryWords : List Str) (s : Stop) : Int :=
  let name := lowerStr s.stop_name
  (if query.isPrefixOf name then 100 else 0)
    + (if strIncludes query name then 50 else 0)
    + 20 * ((queryWords.filter (fun w => w.isPrefixOf name)).length : Int)
    + (s.routes.length : Int)

/-- SearchPanel.js, lines 44–59: each stop whose lowercased name contains
every query word is kept, paired with its score (the `.map`/`.filter(Boolean)`
steps). -/
def sourceScored (allStops : List Stop) (source : Str) : List (Stop × Int) :=
  let query := trimStr (lowerStr source)
  let queryWords := queryWordsOf query
  allStops.filterMap (fun s =>
    if queryWords.all (fun w => strIncludes w (lowerStr s.stop_name)) then
      some (s, srcScore query queryWords s)
    else none)

/-- SearchPanel.js, lines 39–69: the candidate set is built only when the
raw input has length ≥ 1 and no source stop is selected yet; otherwise the
suggestion list is cleared. -/
def sourceCandidates (allStops : List Stop) (source : Str)
    (selectedSource : Option Stop) : List (Stop × Int) :=
  if decide (1 ≤ source.length) && selectedSource.isNone then
    sourceScored allStops source
  else []

/-- SearchPanel.js, lines 44–62: the displayed source suggestions — the
candidates sorted by descending score, truncated to 15, scores dropped. -/
def sourceSuggestions (allStops : List Stop) (source : Str)
    (selectedSource : Option Stop) : List Stop :=
  ((List.insertionSort scoreGe (sourceCandidates allStops source selectedSource)).take
      15).map Prod.fst

/-- SearchPanel.js, lines 95–98: the text part of the destination score
(prefix / substring / per-word-start bonuses). -/
def destTextScore (query : Str) (queryWords : List Str) (s : DestStop) : Int :=
  let name := lowerStr s.stop_name
  (if query.isPrefixOf name then 100 else 0)
    + (if strIncludes query name then 50 else 0)
    + 20 * ((queryWords.filter (fun w => w.isPrefixOf name)).length : Int)

/-- SearchPanel.js, lines 95–100: destination score — text score minus
`stops_away` (`score -= (stop.stops_away || 0)`; `stops_away` is a number
here, and `0 || 0 = 0`). -/
def destScore (query : Str) (queryWords : List Str) (s : DestStop) : Int :=
  destTextScore query queryWords s - (s.stops_away : Int)

/-- SearchPanel.js, lines 89–104: reachable stops matching every word of the
destination query, paired with their scores. -/
def destScored (destinationStops : List DestStop) (destination : Str) :
    List (DestStop × Int) :=
  let query := trimStr (lowerStr destination)
  let queryWords := queryWordsOf query
  destinationStops.filterMap (fun s =>
    if queryWords.all (fun w => strIncludes w (lowerStr s.stop_name)) then
      some (s, destScore query queryWords s)
    else none)

/-- SearchPanel.js, lines 73–111: the displayed destination suggestions.
With no selected source or no reachable stops the list is cleared; with an
empty query the 15 nearest reachable stops are shown as delivered; otherwise
the scored pipeline runs (sort descending, truncate to 15, drop scores). -/
def destSuggestions (selectedSource : Option Stop)
    (destinationStops : List DestStop) (destination : Str) : List DestStop :=
  if selectedSource.isNone || destinationStops.isEmpty then []
  else if destination.length = 0 then destinationStops.take 15
  else
    ((List.insertionSort scoreGe (destScored destinationStops destination)).take 15).map
      Prod.fst

/-! ### Helper lemmas about the scored-suggestion pipeline -/

/-- Every pair produced by a `filterMap` that tags each kept element with its
score satisfies `snd = score fst`. -/
theorem score_tag_invariant {σ : Type} (f : σ → Int) (p : σ → Bool) (l : List σ) :
    ∀ x ∈ l.filterMap (fun s => if p s then some (s, f s) else none), x.2 = f x.1 := by
  intro x hx
  rcases List.mem_filterMap.mp hx with ⟨a, _, hax⟩
  by_cases hpa : p a
  · rw [if_pos hpa] at hax
    cases hax
    rfl
  · rw [if_neg hpa] at hax
    cases hax

/-- The sorted/truncated/projected pipeline is pairwise descending in the
score function, provided the tagged scores agree with it. -/
theorem pairwise_score_pipeline {σ : Type} (f : σ → Int) (cands : List (σ × Int))
    (hinv : ∀ x ∈ cands, x.2 = f x.1) :
    (((List.insertionSort scoreGe cands).take 15).map Prod.fst).Pairwise
      (fun a b => f b ≤ f a) := by
  have hsorted : (List.insertionSort scoreGe cands).Pairwise scoreGe :=
    List.sorted_insertionSort scoreGe cands
  have hinv' : ∀ x ∈ List.insertionSort scoreGe cands, x.2 = f x.1 := fun x hx =>
    hinv x ((List.perm_insertionSort scoreGe cands).mem_iff.mp hx)
  have h1 : (List.insertionSort scoreGe cands).Pairwise
      (fun x y => f y.1 ≤ f x.1) := by
    refine List.Pairwise.imp_of_mem ?_ hsorted
    intro x y hx hy hxy
    have := hinv' x hx
    have := hinv' y hy
    unfold scoreGe at hxy
    omega
  have h2 := List.Pairwise.sublist (List.take_sublist 15 _) h1
  exact List.pairwise_map.mpr h2

/-- In a pairwise score-descending list, an element of strictly larger score
occurs strictly earlier than one of strictly smaller score. -/
theorem indexOf_lt_of_score_lt {σ : Type} [DecidableEq σ] (f : σ → Int)
    (l : List σ) (hp : l.Pairwise (fun a b => f b ≤ f a)) {a b : σ}
    (ha : a ∈ l) (hb : b ∈ l) (hf : f b < f a) : l.indexOf a < l.indexOf b := by
  have hia : l.indexOf a < l.length := List.indexOf_lt_length.mpr ha
  have hib : l.indexOf b < l.length := List.indexOf_lt_length.mpr hb
  rcases lt_trichotomy (l.indexOf a) (l.indexOf b) with h | h | h
  · exact h
  · exfalso
    have hab : a = b := by
      have h1 := List.indexOf_get hia
      have h2 := List.indexOf_get hib
      rw [← h1, ← h2]
      congr 1
      exact Fin.ext h
    rw [hab] at hf
    exact lt_irrefl _ hf
  · exfalso
    have hrel := List.pairwise_iff_get.mp hp ⟨l.indexOf b, hib⟩ ⟨l.indexOf a, hia⟩
      (Fin.mk_lt_mk.mpr h)
    rw [List.indexOf_get hia, List.indexOf_get hib] at hrel
    exact lt_irrefl _ (lt_of_lt_of_le hf hrel)

/-- A whole-query prefix match is in particular a whole-query substring
match (so the `+100` and `+50` bonuses stack). -/
theorem strIncludes_of_isPrefixOf {q name : Str} (h : q.isPrefixOf name = true) :
    strIncludes q name = true :=
  decide_eq_true ( List.IsPrefix.isInfix ( List.isPrefixOf_iff_prefix.mp h))

/-- The tagged score of every source candidate is `srcScore`. -/
theorem sourceCandidates_invariant (allStops : List Stop) (source : Str)
    (sel : Option Stop) :
    ∀ x ∈ sourceCandidates allStops source sel,
      x.2 = srcScore (trimStr (lowerStr source))
        (queryWordsOf (trimStr (lowerStr source))) x.1 := by
  intro x hx
  unfold sourceCandidates at hx
  by_cases hc : (decide (1 ≤ source.length) && sel.isNone) = true
  · rw [if_pos hc] at hx
    unfold sourceScored at hx
    exact score_tag_invariant _ _ _ x hx
  · rw [if_neg hc] at hx
    cases hx

/-- The tagged score of every destination candidate is `destScore`. -/
theorem destScored_invariant (dstops : List DestStop) (destination : Str) :
    ∀ x ∈ destScored dstops destination,
      x.2 = destScore (trimStr (lowerStr destination))
        (queryWordsOf (trimStr (lowerStr destination))) x.1 := by
  intro x hx
  unfold destScored at hx
  exact score_tag_invariant _ _ _ x hx

/-! ### Claims -/

/-- Claim C10: every suggestion list the search panel produces is bounded by
15 entries — the source-suggestion list and the destination-suggestion list
(in both its branches: the empty-query `slice(0, 15)` of the reachable stops
and the filtered, scored `slice(0, 15)`), for every stop list and query. -/
theorem c10_suggestions_bounded (allStops : List Stop) (source : Str)
    (selSrc : Option Stop) (selSrc' : Option Stop) (dstops : List DestStop)
    (destination : Str) :
    (sourceSuggestions allStops source selSrc).length ≤ 15 ∧
      (destSuggestions selSrc' dstops destination).length ≤ 15 := by
  constructor
  · unfold sourceSuggestions
    rw [List.length_map, List.length_take]
    exact min_le_left _ _
  · unfold destSuggestions
    split_ifs with h1 h2
    · simp
    · rw [List.length_take]
      exact min_le_left _ _
    · rw [List.length_map, List.length_take]
      exact min_le_left _ _

/-- Claim C2: with a raw query of length ≥ 1 and no source stop selected,
a stop belongs to the source-suggestion candidate set (before the 15-entry
truncation) iff it is a loaded stop and every non-empty whitespace-separated
word of the lowercased, trimmed query occurs as a substring of the stop's
lowercased name. -/
theorem c2_candidate_membership (allStops : List Stop) (source : Str) (s : Stop)
    (hlen : 1 ≤ source.length) :
    s ∈ (sourceCandidates allStops source none).map Prod.fst ↔
      s ∈ allStops ∧
        (queryWordsOf (trimStr (lowerStr source))).all
          (fun w => strIncludes w (lowerStr s.stop_name)) = true := by
  unfold sourceCandidates
  rw [if_pos (by simp [hlen])]
  unfold sourceScored
  simp only [List.mem_map, List.mem_filterMap]
  constructor
  · rintro ⟨⟨s', sc⟩, ⟨a, haMem, haEq⟩, hfst⟩
    by_cases hc : (queryWordsOf (trimStr (lowerStr source))).all
        (fun w => strIncludes w (lowerStr a.stop_name)) = true
    · rw [if_pos hc] at haEq
      cases haEq
      cases hfst
      exact ⟨haMem, hc⟩
    · rw [if_neg hc] at haEq
      cases haEq
  · rintro ⟨hmem, hall⟩
    refine ⟨(s, srcScore (trimStr (lowerStr source))
      (queryWordsOf (trimStr (lowerStr source))) s), ⟨s, hmem, ?_⟩, rfl⟩
    rw [if_pos hall]

/-- Claim C2 witness: the stop named "anna nagar depot" matches the
two-word query "nagar anna" (case-insensitively, in any word order). -/
theorem c2_candidate_membership_witness :
    (⟨7, "Anna Nagar Depot".toList, []⟩ : Stop) ∈
      (sourceCandidates [⟨7, "Anna Nagar Depot".toList, []⟩]
        "nagar ANNA".toList none).map Prod.fst :=
  (c2_candidate_membership [⟨7, "Anna Nagar Depot".toList, []⟩]
    "nagar ANNA".toList ⟨7, "Anna Nagar Depot".toList, []⟩ (by decide)).mpr
    (by decide)

/-- A stop whose name starts with the demo query "st" but which is served by
no route. -/
def demoPrefixStop : Stop := ⟨1, "st a".toList, []⟩

/-- A stop whose name only contains "st" as a substring, served by 121
routes. -/
def demoPopularStop : Stop := ⟨2, "west".toList, List.replicate 121 ['r']⟩

set_option maxRecDepth 8000

/-- Claim C1 counterexample: for the query "st", the stop "west" (a
substring-only match with 121 serving routes, score 50 + 121 = 171) ranks
before the stop "st a" (a prefix match with no routes, score
100 + 50 + 20 + 0 = 170): popularity does not only break ties within a
text-match tier — it is added to the same scalar score and can cross tiers. -/
theorem c1_counterexample :
    (trimStr (lowerStr "st".toList)).isPrefixOf
        (lowerStr demoPrefixStop.stop_name) = true ∧
      (trimStr (lowerStr "st".toList)).isPrefixOf
        (lowerStr demoPopularStop.stop_name) = false ∧
      strIncludes (trimStr (lowerStr "st".toList))
        (lowerStr demoPopularStop.stop_name) = true ∧
      sourceSuggestions [demoPrefixStop, demoPopularStop] "st".toList none =
        [demoPopularStop, demoPrefixStop] := by decide

/-- Claim C1 (amended): the source-suggestion ranking sorts by the descending
additive score `100·[prefix] + 50·[substring] + 20·(word starts) + routeCount`.
Consequently, among candidates with equal word-start bonuses and equal route
counts (popularity), every stop whose lowercased name starts with the query
ranks before every stop whose name only contains it as a substring; a
popularity difference exceeding the 100-point prefix bonus can, however,
override the text-match tiers. -/
theorem c1_amended_prefix_over_substring (allStops : List Stop) (source : Str)
    (sel : Option Stop) {a b : Stop}
    (ha : a ∈ sourceSuggestions allStops source sel)
    (hb : b ∈ sourceSuggestions allStops source sel)
    (hpa : (trimStr (lowerStr source)).isPrefixOf (lowerStr a.stop_name) = true)
    (hpb : (trimStr (lowerStr source)).isPrefixOf (lowerStr b.stop_name) = false)
    (hsb : strIncludes (trimStr (lowerStr source)) (lowerStr b.stop_name) = true)
    (hword : ((queryWordsOf (trimStr (lowerStr source))).filter
          (fun w => w.isPrefixOf (lowerStr a.stop_name))).length =
        ((queryWordsOf (trimStr (lowerStr source))).filter
          (fun w => w.isPrefixOf (lowerStr b.stop_name))).length)
    (hroutes : a.routes.length = b.routes.length) :
    (sourceSuggestions allStops source sel).indexOf a <
      (sourceSuggestions allStops source sel).indexOf b := by
  have hsa : strIncludes (trimStr (lowerStr source)) (lowerStr a.stop_name) = true :=
    strIncludes_of_isPrefixOf hpa
  have hpair := pairwise_score_pipeline
    (srcScore (trimStr (lowerStr source)) (queryWordsOf (trimStr (lowerStr source))))
    (sourceCandidates allStops source sel)
    (sourceCandidates_invariant allStops source sel)
  refine indexOf_lt_of_score_lt _ _ hpair ha hb ?_
  simp only [srcScore]
  rw [if_pos hpa, if_neg (by rw [hpb]; exact Bool.false_ne_true), if_pos hsa,
    if_pos hsb, hword, hroutes]
  omega

/-- Claim C1 (amended) witness: for the two-word query "st a", the prefix
match "st a x" (score 170) ranks before the substring-only match "a st a"
(score 70); both have one word-start bonus and no routes. -/
theorem c1_amended_prefix_over_substring_witness :
    (sourceSuggestions [⟨3, "st a x".toList, []⟩, ⟨4, "a st a".toList, []⟩]
        "st a".toList none).indexOf ⟨3, "st a x".toList, []⟩ <
      (sourceSuggestions [⟨3, "st a x".toList, []⟩, ⟨4, "a st a".toList, []⟩]
        "st a".toList none).indexOf ⟨4, "a st a".toList, []⟩ :=
  c1_amended_prefix_over_substring
    [⟨3, "st a x".toList, []⟩, ⟨4, "a st a".toList, []⟩] "st a".toList none
    (by decide) (by decide) (by decide) (by decide) (by decide) (by decide)
    (by decide)

/-- Claim C7: destination-suggestion ranking is monotone in proximity — for
two reachable stops shown for a non-empty destination query whose names earn
identical text-match contributions (same prefix/substring/word-start
bonuses, i.e. equal `destTextScore`), the stop with strictly smaller
`stops_away` never ranks below the other, since the score is strictly
decreasing in `stops_away` with the text features fixed. -/
theorem c7_dest_proximity_monotone (selectedSource : Option Stop)
    (dstops : List DestStop) (destination : Str) {a b : DestStop}
    (hsel : selectedSource.isNone = false) (hne : dstops.isEmpty = false)
    (hq : destination.length ≠ 0)
    (ha : a ∈ destSuggestions selectedSource dstops destination)
    (hb : b ∈ destSuggestions selectedSource dstops destination)
    (htext : destTextScore (trimStr (lowerStr destination))
        (queryWordsOf (trimStr (lowerStr destination))) a =
      destTextScore (trimStr (lowerStr destination))
        (queryWordsOf (trimStr (lowerStr destination))) b)
    (haway : a.stops_away < b.stops_away) :
    (destSuggestions selectedSource dstops destination).indexOf a <
      (destSuggestions selectedSource dstops destination).indexOf b := by
  have hred : destSuggestions selectedSource dstops destination =
      ((List.insertionSort scoreGe (destScored dstops destination)).take 15).map
        Prod.fst := by
    unfold destSuggestions
    rw [if_neg (by simp [hsel, hne]), if_neg hq]
  rw [hred] at ha hb ⊢
  have hpair := pairwise_score_pipeline
    (destScore (trimStr (lowerStr destination))
      (queryWordsOf (trimStr (lowerStr destination))))
    (destScored dstops destination) (destScored_invariant dstops destination)
  refine indexOf_lt_of_score_lt _ _ hpair ha hb ?_
  simp only [destScore]
  rw [← htext]
  omega

/-- Claim C7 witness: among two reachable stops both named "k" for the query
"k", the stop one stop away ranks before the stop two stops away. -/
theorem c7_dest_proximity_monotone_witness :
    (destSuggestions (some ⟨9, "o".toList, []⟩)
        [⟨1, "k".toList, [], 2⟩, ⟨2, "k".toList, [], 1⟩] "k".toList).indexOf
        ⟨2, "k".toList, [], 1⟩ <
      (destSuggestions (some ⟨9, "o".toList, []⟩)
        [⟨1, "k".toList, [], 2⟩, ⟨2, "k".toList, [], 1⟩] "k".toList).indexOf
        ⟨1, "k".toList, [], 2⟩ :=
  c7_dest_proximity_monotone (some ⟨9, "o".toList, []⟩)
    [⟨1, "k".toList, [], 2⟩, ⟨2, "k".toList, [], 1⟩] "k".toList
    (by decide) (by decide) (by decide) (by decide) (by decide) (by decide)
    (by decide)

/-! ### App.js: `handleSearch` (lines 44–86) -/

/-- A route record as delivered by `/search-route`.  `handleSearch` stores
these records opaquely; only `route_number` is consulted later (by the map
view's bus filter), so the remaining fields are not modelled. -/
structure RouteRec where
  route_number : Str
deriving DecidableEq

/-- The JSON body of a `/search-route` response: either a bare array of
route records, or an object whose `routes`, `detail` and `message` fields
may each be absent. -/
inductive RespData where
  | arr (l : List RouteRec)
  | obj (routes : Option (List RouteRec)) (detail : Option Str) (message : Option Str)
deriving DecidableEq

/-- The observable outcome of the `fetch`: a parsed response with its `ok`
flag, or a network/parse failure (anything that throws inside the `try`). -/
inductive SearchOutcome where
  | resp (ok : Bool) (data : RespData)
  | netfail
deriving DecidableEq

/-- Field `data.detail` (undefined on a bare array). -/
def respDetail : RespData → Option Str
  | .arr _ => none
  | .obj _ d _ => d

/-- Field `data.message` (undefined on a bare array). -/
def respMessage : RespData → Option Str
  | .arr _ => none
  | .obj _ _ m => m

/-- The error message fallback chain `a || b || dflt` on strings, with
JavaScript truthiness (absent and empty strings falsy). -/
def firstTruthyStr (a b : Option Str) (dflt : Str) : Str :=
  if jsTruthyStr a then a.getD [] else if jsTruthyStr b then b.getD [] else dflt

/-- App.js line 78: the default explanatory message. -/
def noRoutesMsg : Str := "No routes found between the specified stops".toList

/-- App.js line 81: the catch-branch message. -/
def connectFailMsg : Str :=
  "Failed to connect to server. Please make sure the backend is running.".toList

/-- The application state touched by `handleSearch`. -/
structure AppState where
  routes : List RouteRec
  selectedRoute : Option RouteRec
  loading : Bool
  error : Option Str
  searchParams : Str × Str
  selectedBusId : Option Str
  isSearchActive : Bool
  isRoutesExpanded : Bool
deriving DecidableEq

/-- App.js lines 45–50: state changes before the fetch. -/
def handleSearchStart (st : AppState) (source destination : Str) : AppState :=
  { st with
    loading := true
    error := none
    selectedBusId := none
    searchParams := (source, destination)
    isSearchActive := true
    isRoutesExpanded := false }

/-- App.js lines 75–79: the no-routes branch — clear `routes` and
`selectedRoute`, surface `data.detail || data.message || <default>`. -/
def noRoutesBranch (st : AppState) (data : RespData) : AppState :=
  { st with
    routes := []
    selectedRoute := none
    error := some (firstTruthyStr (respDetail data) (respMessage data) noRoutesMsg) }

/-- App.js lines 44–86: the complete state transition of one `handleSearch`
call, as a function of the fetch outcome.  A bare non-empty array and an
object with a non-empty `routes` field populate `routes`/`selectedRoute`;
everything else falls through to `noRoutesBranch`; a thrown error is caught
(`connectFailMsg`, `routes` cleared, `selectedRoute` untouched); `loading`
is cleared on every path. -/
def handleSearch (st : AppState) (source destination : Str)
    (o : SearchOutcome) : AppState :=
  let st1 := handleSearchStart st source destination
  match o with
  | .netfail =>
    { st1 with error := some connectFailMsg, routes := [], loading := false }
  | .resp ok data =>
    let st2 :=
      match data with
      | .arr l =>
        if ok && decide (0 < l.length) then
          { st1 with
            routes := l
            selectedRoute := l.head?
            selectedBusId := none
            error := none }
        else noRoutesBranch st1 data
      | .obj r _ _ =>
        if ok && r.isSome && decide (0 < (r.getD []).length) then
          { st1 with
            routes := r.getD []
            selectedRoute := (r.getD []).head?
            selectedBusId := none
            error := none }
        else noRoutesBranch st1 data
    { st2 with loading := false }

/-- Claim C3: `handleSearch` treats the two accepted response shapes
equivalently — for every candidate list, the state reached from the bare
array equals the state reached from the object carrying the list in its
`routes` field; a non-empty list sets `routes` to the list and selects its
first element, and an empty list (either shape) clears both and shows the
explanatory message. -/
theorem c3_response_shape_equivalence (st : AppState) (source destination : Str)
    (l : List RouteRec) :
    handleSearch st source destination (.resp true (.arr l)) =
        handleSearch st source destination (.resp true (.obj (some l) none none)) ∧
      handleSearch st source destination (.resp true (.arr l)) =
        { handleSearchStart st source destination with
          routes := l
          selectedRoute := l.head?
          error := if l.isEmpty then some noRoutesMsg else none
          loading := false } := by
  cases l with
  | nil => exact ⟨rfl, rfl⟩
  | cons h t =>
    refine ⟨rfl, ?_⟩
    simp [handleSearch, handleSearchStart]

/-- Claim C4: an empty candidate sequence in an OK response is handled as
data, not a fault — `routes` is cleared (the previous search's routes never
survive), `selectedRoute` becomes `none`, the explanatory message is shown —
and the loading flag is cleared on every path, the network-failure path
included. -/
theorem c4_empty_result_is_not_fault (st : AppState) (source destination : Str) :
    ((handleSearch st source destination (.resp true (.arr []))).routes = [] ∧
        (handleSearch st source destination (.resp true (.arr []))).selectedRoute
          = none ∧
        (handleSearch st source destination (.resp true (.arr []))).error
          = some noRoutesMsg) ∧
      ((handleSearch st source destination
            (.resp true (.obj (some []) none none))).routes = [] ∧
        (handleSearch st source destination
            (.resp true (.obj (some []) none none))).selectedRoute = none ∧
        (handleSearch st source destination
            (.resp true (.obj (some []) none none))).error = some noRoutesMsg) ∧
      ∀ o : SearchOutcome,
        (handleSearch st source destination o).loading = false := by
  refine ⟨⟨rfl, rfl, rfl⟩, ⟨rfl, rfl, rfl⟩, ?_⟩
  intro o
  cases o with
  | netfail => rfl
  | resp ok data => cases data <;> rfl

/-! ### LiveBusTracker.js: `fetchLiveBuses` (lines 11–69) and the rendered
list (lines 142–181) -/

/-- A bus as delivered by `/live-bus-positions` (also the shape consumed by
the map view).  Coordinates are optional numbers: absent/null is `none`,
and JavaScript treats the number `0` as falsy (`jsTruthyNum`). -/
structure RawBus where
  bus_id : Str
  route : Str
  latitude : Option Int
  longitude : Option Int
  current_stop : Str
  direction : Str
  delay_status : Str
  passengers : Nat
  last_update : Str
deriving DecidableEq

/-- A bus entry as displayed by the tracker: the union of the ETA response
shape and the mapped live-position shape (absent fields are `none`). -/
structure BusView where
  bus_id : Str
  route_number : Option Str
  current_location : Option Str
  direction : Option Str
  latitude : Option Int
  longitude : Option Int
  last_update : Option Str
  delay_status : Option Str
  passengers : Option Nat
  eta_minutes : Option Nat
  arrival_time : Option Str
  stops_away : Option Nat
  distance_km : Option Int
  confidence : Option Int
deriving DecidableEq

/-- LiveBusTracker.js lines 46–56: map a live-position bus to the display
shape (`eta_minutes`, `stops_away` etc. stay absent). -/
def mapPosBus (b : RawBus) : BusView where
  bus_id := b.bus_id
  route_number := some b.route
  current_location := some b.current_stop
  direction := some b.direction
  latitude := b.latitude
  longitude := b.longitude
  last_update := some b.last_update
  delay_status := some b.delay_status
  passengers := some b.passengers
  eta_minutes := none
  arrival_time := none
  stops_away := none
  distance_km := none
  confidence := none

/-- The parsed body of a `/get-bus-eta` response. -/
structure EtaData where
  incoming_buses : Option (List BusView)
deriving DecidableEq

/-- The parsed body of a `/live-bus-positions` response. -/
structure PosData where
  buses : Option (List RawBus)
deriving DecidableEq

/-- The outcome of one `fetch`: a parsed body, or anything that throws
(network failure or malformed JSON). -/
inductive Fetch (α : Type) where
  | ok (a : α)
  | err
deriving DecidableEq

/-- The tracker state touched by `fetchLiveBuses`. -/
structure TrackerState where
  liveBuses : List BusView
  loading : Bool
  error : Option Str
  hasUpdate : Bool
deriving DecidableEq

/-- LiveBusTracker.js line 62. -/
def noLiveDataMsg : Str := "No live bus data".toList

/-- LiveBusTracker.js line 65. -/
def fetchFailMsg : Str := "Failed to fetch live bus data".toList

/-- LiveBusTracker.js lines 64–67: the catch branch — error message set,
displayed list emptied, then `setLoading(false)`. -/
def catchState (st : TrackerState) : TrackerState :=
  { st with
    error := some fetchFailMsg
    liveBuses := []
    loading := false }

/-- LiveBusTracker.js line 15: the ETA request is attempted only when
`fromStop`, `toStop` and `routeNumber` are all truthy. -/
def etaConsulted (fromStop toStop routeNumber : Option Str) : Bool :=
  jsTruthyStr fromStop && jsTruthyStr toStop && jsTruthyStr routeNumber

/-- LiveBusTracker.js line 26: the ETA response short-circuits the fallback
only when `incoming_buses` is present and non-empty. -/
def etaHit (ed : EtaData) : Bool :=
  ed.incoming_buses.isSome && decide (0 < (ed.incoming_buses.getD []).length)

/-- LiveBusTracker.js lines 35–63: the live-positions fallback — on a
present `buses` field, filter by route (when truthy) and map to the display
shape; on an absent field, empty list plus `noLiveDataMsg`; a throw is
caught. -/
def fallbackState (st : TrackerState) (routeNumber : Option Str)
    (pf : Fetch PosData) : TrackerState :=
  match pf with
  | .err => catchState st
  | .ok pd =>
    match pd.buses with
    | some bs =>
      let buses := if jsTruthyStr routeNumber then
          bs.filter (fun b => b.route == routeNumber.getD []) else bs
      { st with
        liveBuses := buses.map mapPosBus
        error := none
        loading := false
        hasUpdate := true }
    | none =>
      { st with
        liveBuses := []
        error := some noLiveDataMsg
        loading := false }

/-- LiveBusTracker.js lines 11–69: the complete state transition of one
`fetchLiveBuses` call as a function of the two fetch outcomes.  The ETA
request runs first when all three parameters are truthy; a non-empty
`incoming_buses` list returns early; otherwise the live-positions fallback
runs; every thrown error is caught and `loading` is cleared on every path. -/
def fetchLiveBuses (st : TrackerState) (fromStop toStop routeNumber : Option Str)
    (ef : Fetch EtaData) (pf : Fetch PosData) : TrackerState :=
  if etaConsulted fromStop toStop routeNumber then
    match ef with
    | .err => catchState st
    | .ok ed =>
      if etaHit ed then
        { st with
          liveBuses := ed.incoming_buses.getD []
          error := none
          loading := false
          hasUpdate := true }
      else fallbackState st routeNumber pf
  else fallbackState st routeNumber pf

/-- The fallback fetch is reached iff the ETA request was skipped or
returned without a usable `incoming_buses` list. -/
def fallbackReached (fromStop toStop routeNumber : Option Str)
    (ef : Fetch EtaData) : Bool :=
  !etaConsulted fromStop toStop routeNumber ||
    (match ef with
     | .ok ed => !etaHit ed
     | .err => false)

/-- Claim C5: `fetchLiveBuses` never propagates an internal fault — it is a
total state transition that clears the loading flag on every outcome;
whenever it records an error (thrown ETA request, thrown fallback request,
or a response without a `buses` field) the displayed bus list is empty, and
each of those failure outcomes does record an error message. -/
theorem c5_fetch_live_buses_total (st : TrackerState)
    (fromStop toStop routeNumber : Option Str) (ef : Fetch EtaData)
    (pf : Fetch PosData) :
    ((fetchLiveBuses st fromStop toStop routeNumber ef pf).loading = false) ∧
      ((fetchLiveBuses st fromStop toStop routeNumber ef pf).error.isSome = true →
        (fetchLiveBuses st fromStop toStop routeNumber ef pf).liveBuses = []) ∧
      (etaConsulted fromStop toStop routeNumber = true → ef = Fetch.err →
        (fetchLiveBuses st fromStop toStop routeNumber ef pf).error.isSome = true) ∧
      (fallbackReached fromStop toStop routeNumber ef = true → pf = Fetch.err →
        (fetchLiveBuses st fromStop toStop routeNumber ef pf).error.isSome = true) ∧
      (∀ pd : PosData, fallbackReached fromStop toStop routeNumber ef = true →
        pf = Fetch.ok pd → pd.buses = none →
        (fetchLiveBuses st fromStop toStop routeNumber ef pf).error.isSome = true) := by
  unfold fetchLiveBuses fallbackReached fallbackState catchState
  by_cases hc : etaConsulted fromStop toStop routeNumber = true
  · cases ef with
    | err => simp [hc]
    | ok ed =>
      by_cases hh : etaHit ed = true
      · simp [hc, hh]
      · cases pf with
        | err => simp [hc, hh]
        | ok pd =>
          cases hb : pd.buses with
          | some bs => simp [hc, hh, hb]
          | none => simp [hc, hh, hb]
  · cases pf with
    | err => simp [hc]
    | ok pd =>
      cases hb : pd.buses with
      | some bs => simp [hc, hb]
      | none => simp [hc, hb]

/-- Claim C5 witness: with all three parameters truthy and both requests
throwing, the tracker ends not loading, with an error recorded and an empty
bus list. -/
theorem c5_fetch_live_buses_total_witness :
    (fetchLiveBuses ⟨[], true, none, false⟩ (some ['a']) (some ['b'])
        (some ['c']) Fetch.err Fetch.err).loading = false ∧
      (fetchLiveBuses ⟨[], true, none, false⟩ (some ['a']) (some ['b'])
        (some ['c']) Fetch.err Fetch.err).liveBuses = [] ∧
      (fetchLiveBuses ⟨[], true, none, false⟩ (some ['a']) (some ['b'])
        (some ['c']) Fetch.err Fetch.err).error.isSome = true :=
  ⟨(c5_fetch_live_buses_total ⟨[], true, none, false⟩ (some ['a']) (some ['b'])
      (some ['c']) Fetch.err Fetch.err).1,
    (c5_fetch_live_buses_total ⟨[], true, none, false⟩ (some ['a']) (some ['b'])
      (some ['c']) Fetch.err Fetch.err).2.1 (by decide),
    (c5_fetch_live_buses_total ⟨[], true, none, false⟩ (some ['a']) (some ['b'])
      (some ['c']) Fetch.err Fetch.err).2.2.1 (by decide) rfl⟩

/-- JavaScript `Array.prototype.map((x, index) => ...)`: map with the
element's position, counting from `k`. -/
def mapWithIndexFrom {α β : Type} (f : Nat → α → β) : Nat → List α → List β
  | _, [] => []
  | k, a :: as => f k a :: mapWithIndexFrom f (k + 1) as

/-- JavaScript `Array.prototype.map((x, index) => ...)`. -/
def mapWithIndex {α β : Type} (f : Nat → α → β) (l : List α) : List β :=
  mapWithIndexFrom f 0 l

/-- LiveBusTracker.js lines 150–181: each displayed bus card, paired with
its `index === 0` flag (the condition rendering the "Arriving Next" badge
and the highlighted styling). -/
def busCards (st : TrackerState) : List (BusView × Bool) :=
  mapWithIndex (fun index bus => (bus, index == 0)) st.liveBuses

/-- LiveBusTracker.js lines 142–147: the "No buses currently tracked"
placeholder is rendered iff the list is empty, nothing is loading and no
error is shown. -/
def showNoBusesPlaceholder (st : TrackerState) : Bool :=
  st.liveBuses.isEmpty && !st.loading && st.error.isNone

/-- Starting the index count at `k + 1` leaves every `index == 0` flag
false. -/
theorem mapWithIndexFrom_flags_false (l : List BusView) (k : Nat) :
    (mapWithIndexFrom (fun index bus => (bus, index == 0)) (k + 1) l).map
      Prod.snd = List.replicate l.length false := by
  induction l generalizing k with
  | nil => rfl
  | cons b bs ih =>
    simp only [mapWithIndexFrom, List.map_cons, List.length_cons,
      List.replicate_succ, ih]
    simp

/-- Claim C6: in the rendered live-arrivals list, for every non-empty bus
sequence the first card — and only the first — carries the "Arriving Next"
flag (the flag column is `true` followed by `false`s), and an empty
sequence with no pending load and no error renders the "No buses currently
tracked" placeholder rather than an error. -/
theorem c6_arriving_next_flag (st : TrackerState) :
    (st.liveBuses ≠ [] →
        (busCards st).map Prod.snd =
          true :: List.replicate (st.liveBuses.length - 1) false) ∧
      (st.liveBuses = [] → st.loading = false → st.error = none →
        showNoBusesPlaceholder st = true) := by
  constructor
  · intro hne
    cases hl : st.liveBuses with
    | nil => exact absurd hl hne
    | cons b bs =>
      unfold busCards mapWithIndex
      rw [hl]
      simp only [mapWithIndexFrom, List.map_cons, List.length_cons]
      rw [show (0 + 1 : Nat) = 1 from rfl, Nat.add_sub_cancel]
      have := mapWithIndexFrom_flags_false bs 0
      rw [show (0 + 1 : Nat) = 1 from rfl] at this
      rw [this]
      simp
  · intro he hl herr
    unfold showNoBusesPlaceholder
    rw [he, hl, herr]
    rfl

/-- Claim C6 witness: with two tracked buses only the first card is
flagged, and the empty idle state shows the placeholder. -/
theorem c6_arriving_next_flag_witness :
    (busCards ⟨[⟨['x'], none, none, none, none, none, none, none, none,
          none, none, none, none, none⟩,
        ⟨['y'], none, none, none, none, none, none, none, none, none, none,
          none, none, none⟩], false, none, true⟩).map Prod.snd =
        true :: List.replicate 1 false ∧
      showNoBusesPlaceholder ⟨[], false, none, false⟩ = true :=
  ⟨(c6_arriving_next_flag ⟨[⟨['x'], none, none, none, none, none, none,
      none, none, none, none, none, none, none⟩,
      ⟨['y'], none, none, none, none, none, none, none, none, none, none,
        none, none, none⟩], false, none, true⟩).1 (by decide),
    (c6_arriving_next_flag ⟨[], false, none, false⟩).2 rfl rfl rfl⟩

/-! ### Map view (`MapView.js`): `fetchBuses` (lines 153–178) and
`displayedBuses` (lines 203–211) -/

/-- A fleet entry held in the map view's `liveBuses` state: the spread
`{...newBus}` keeps every raw field; `prevLat`/`prevLng` are present only
when the bus moved since the previous snapshot. -/
structure FleetBus where
  bus : RawBus
  prevLat : Option Int
  prevLng : Option Int
  moved : Bool
deriving DecidableEq

/-- MapView lines 159–169: one refresh of the map's fleet list.  When the
`buses` field is absent nothing changes; otherwise buses with falsy
latitude or longitude are dropped, and each kept bus is annotated with a
`moved` flag by comparing its latitude against the previous snapshot. -/
def fetchBusesUpdate (prev : List FleetBus) (payload : Option (List RawBus)) :
    List FleetBus :=
  match payload with
  | none => prev
  | some bs =>
    let validBuses := bs.filter (fun b =>
      jsTruthyNum b.latitude && jsTruthyNum b.longitude)
    validBuses.map (fun newBus =>
      match prev.find? (fun b => b.bus.bus_id == newBus.bus_id) with
      | some oldBus =>
        if oldBus.bus.latitude != newBus.latitude then
          { bus := newBus
            prevLat := oldBus.bus.latitude
            prevLng := oldBus.bus.longitude
            moved := true }
        else { bus := newBus, prevLat := none, prevLng := none, moved := false }
      | none => { bus := newBus, prevLat := none, prevLng := none, moved := false })

/-- MapView lines 203–211: the buses actually drawn — restricted to the
selected bus id when one is selected, else to the selected route when one
is selected, else the whole list. -/
def displayedBuses (liveBuses : List FleetBus) (selectedBusId : Option Str)
    (selectedRoute : Option RouteRec) : List FleetBus :=
  if jsTruthyStr selectedBusId then
    liveBuses.filter (fun b => b.bus.bus_id == selectedBusId.getD [])
  else
    match selectedRoute with
    | some r => liveBuses.filter (fun b => b.bus.route == r.route_number)
    | none => liveBuses

/-- Claim C9: invariant of the map view's live-fleet list — if every bus of
the previous snapshot has truthy latitude and longitude, then so does every
bus after a refresh (missing, null or exactly-zero coordinates are silently
dropped), and the buses actually drawn are a subset of the list, restricted
to the selected bus id when one is selected, else to the selected route
when one is selected. -/
theorem c9_fleet_coordinates_invariant (prev : List FleetBus)
    (payload : Option (List RawBus)) (selectedBusId : Option Str)
    (selectedRoute : Option RouteRec)
    (hprev : ∀ b ∈ prev, jsTruthyNum b.bus.latitude = true ∧
      jsTruthyNum b.bus.longitude = true) :
    (∀ b ∈ fetchBusesUpdate prev payload,
        jsTruthyNum b.bus.latitude = true ∧ jsTruthyNum b.bus.longitude = true) ∧
      displayedBuses (fetchBusesUpdate prev payload) selectedBusId selectedRoute ⊆
        fetchBusesUpdate prev payload ∧
      (jsTruthyStr selectedBusId = true →
        ∀ b ∈ displayedBuses (fetchBusesUpdate prev payload) selectedBusId
          selectedRoute, b.bus.bus_id = selectedBusId.getD []) ∧
      (jsTruthyStr selectedBusId = false → ∀ r, selectedRoute = some r →
        ∀ b ∈ displayedBuses (fetchBusesUpdate prev payload) selectedBusId
          selectedRoute, b.bus.route = r.route_number) := by
  refine ⟨?_, ?_, ?_, ?_⟩
  · intro b hb
    cases payload with
    | none => exact hprev b hb
    | some bs =>
      unfold fetchBusesUpdate at hb
      rcases List.mem_map.mp hb with ⟨nb, hnb, hmk⟩
      have hvalid := (List.mem_filter.mp hnb).2
      have hbus : b.bus = nb := by
        cases hfind : prev.find? (fun x => x.bus.bus_id == nb.bus_id) with
        | some oldBus =>
          rw [hfind] at hmk
          subst hmk
          cases hc : oldBus.bus.latitude != nb.latitude <;> simp [hc]
        | none =>
          rw [hfind] at hmk
          subst hmk
          rfl
      rw [hbus]
      exact ⟨(Bool.and_eq_true _ _ |>.mp hvalid).1,
        (Bool.and_eq_true _ _ |>.mp hvalid).2⟩
  · unfold displayedBuses
    split_ifs with h
    · exact List.filter_subset' _
    · cases selectedRoute with
      | some r => exact List.filter_subset' _
      | none => exact fun b hb => hb
  · intro hid b hb
    unfold displayedBuses at hb
    rw [if_pos hid] at hb
    have := (List.mem_filter.mp hb).2
    exact eq_of_beq this
  · intro hid r hr b hb
    unfold displayedBuses at hb
    rw [if_neg (by rw [hid]; exact Bool.false_ne_true), hr] at hb
    have := (List.mem_filter.mp hb).2
    exact eq_of_beq this

/-- Claim C9 witness: from an empty previous snapshot, a refresh delivering
one bus at the origin-zero coordinate and one with truthy coordinates keeps
only the latter, and the drawn buses are that same list. -/
theorem c9_fleet_coordinates_invariant_witness :
    (∀ b ∈ fetchBusesUpdate []
        (some [⟨['u'], ['r'], some 0, some 5, [], [], [], 0, []⟩,
          ⟨['v'], ['r'], some 3, some 4, [], [], [], 0, []⟩]),
        jsTruthyNum b.bus.latitude = true ∧ jsTruthyNum b.bus.longitude = true) ∧
      displayedBuses (fetchBusesUpdate []
          (some [⟨['u'], ['r'], some 0, some 5, [], [], [], 0, []⟩,
            ⟨['v'], ['r'], some 3, some 4, [], [], [], 0, []⟩])) none none ⊆
        fetchBusesUpdate []
          (some [⟨['u'], ['r'], some 0, some 5, [], [], [], 0, []⟩,
            ⟨['v'], ['r'], some 3, some 4, [], [], [], 0, []⟩]) :=
  ⟨(c9_fleet_coordinates_invariant []
      (some [⟨['u'], ['r'], some 0, some 5, [], [], [], 0, []⟩,
        ⟨['v'], ['r'], some 3, some 4, [], [], [], 0, []⟩]) none none
      (fun b hb => absurd hb (List.not_mem_nil b))).1,
    (c9_fleet_coordinates_invariant []
      (some [⟨['u'], ['r'], some 0, some 5, [], [], [], 0, []⟩,
        ⟨['v'], ['r'], some 3, some 4, [], [], [], 0, []⟩]) none none
      (fun b hb => absurd hb (List.not_mem_nil b))).2.1⟩

end MTC
